import Mathlib

/-!
# HessianBlocks: scaled state representation of the DSO back end

A shallow embedding of `src/FullSystem/HessianBlocks.h`.

Conventions of the embedding:

* `float` and `double` values are rationals and every operation is exact.  The
  cast `cast<float>()` is therefore the identity.
* A floating division whose divisor is zero has no rational value (IEEE gives an
  infinity or a NaN there), so a division by a run-time value is `fdiv`, which
  returns `none` for a zero divisor.  Divisions by non-zero literals stay `/`.
* Fixed-size Eigen vectors `VecN` are functions `Fin N → ℚ`.
* Pointers to frames are frame identifiers (`Nat`).
* The Lie group `SE3` and the global settings come from headers outside this
  file; they are parameters of the embedding.
-/

set_option linter.unusedVariables false

namespace dso

/-! ## Numeric helpers -/

/-- Exact reading of a floating division by a run-time value: no value when the
divisor is zero. -/
def fdiv (a b : ℚ) : Option ℚ :=
  if b = 0 then none else some (a / b)

/-- Conversion of a floating value to `int` as C++ performs it: the fractional
part is discarded (truncation toward zero); a value outside the range of a
32-bit `int` has no defined result. -/
def floatToInt (x : ℚ) : Option Int :=
  let t : Int := if 0 ≤ x then ⌊x⌋ else ⌈x⌉
  if -2147483648 ≤ t ∧ t ≤ 2147483647 then some t else none

abbrev Vec2 := Fin 2 → ℚ
abbrev Vec3 := Fin 3 → ℚ
abbrev Vec6 := Fin 6 → ℚ
abbrev Vec10 := Fin 10 → ℚ
abbrev VecC := Fin 4 → ℚ

/-- Eigen `v.segment<3>(start)` read as an r-value (`start + 3 ≤ 10`). -/
def segment3 (v : Vec10) (start : Nat) : Vec3 :=
  fun j => if h : start + j.val < 10 then v ⟨start + j.val, h⟩ else 0

/-- Eigen `v.segment<3>(start) = w`: overwrites the three components from `start`. -/
def setSegment3 (v : Vec10) (start : Nat) (w : Vec3) : Vec10 :=
  fun i =>
    if h : start ≤ i.val ∧ i.val < start + 3 then w ⟨i.val - start, by omega⟩ else v i

/-- Eigen `v.head<6>()`. -/
def head6 (v : Vec10) : Vec6 :=
  fun j => v ⟨j.val, by omega⟩

/-- Eigen `v[i] = x`. -/
def setAt {n : Nat} {α : Type} (v : Fin n → α) (i : Fin n) (x : α) : Fin n → α :=
  fun k => if k = i then x else v k

/-- Eigen `a - b` on vectors. -/
def vsub {n : Nat} (a b : Fin n → ℚ) : Fin n → ℚ :=
  fun k => a k - b k

/-! ## Scale constants (HessianBlocks.h:56-73) -/

def SCALE_IDEPTH : ℚ := 1
def SCALE_XI_ROT : ℚ := 1
def SCALE_XI_TRANS : ℚ := 1 / 2
def SCALE_F : ℚ := 50
def SCALE_C : ℚ := 50
def SCALE_W : ℚ := 1
def SCALE_A : ℚ := 10
def SCALE_B : ℚ := 1000

def SCALE_IDEPTH_INVERSE : ℚ := 1 / SCALE_IDEPTH
def SCALE_XI_ROT_INVERSE : ℚ := 1 / SCALE_XI_ROT
def SCALE_XI_TRANS_INVERSE : ℚ := 1 / SCALE_XI_TRANS
def SCALE_F_INVERSE : ℚ := 1 / SCALE_F
def SCALE_C_INVERSE : ℚ := 1 / SCALE_C
def SCALE_W_INVERSE : ℚ := 1 / SCALE_W
def SCALE_A_INVERSE : ℚ := 1 / SCALE_A
def SCALE_B_INVERSE : ℚ := 1 / SCALE_B

/-- The per-component scale of the 10-dimensional frame state, as the setters
apply it: translation (3), rotation (3), affine a, affine b, and the two unused
slots scaled like a and b. -/
def frameScale : Vec10 :=
  ![SCALE_XI_TRANS, SCALE_XI_TRANS, SCALE_XI_TRANS,
    SCALE_XI_ROT, SCALE_XI_ROT, SCALE_XI_ROT,
    SCALE_A, SCALE_B, SCALE_A, SCALE_B]

/-- Component-wise product `scale ⊙ r` of the frame scale with a state vector. -/
def scaleMul (r : Vec10) : Vec10 :=
  fun i => frameScale i * r i

/-! ## affFromTo (HessianBlocks.h:40-43) -/

/-- Source `affFromTo`: `Vec2(from[0] / to[0], (from[1] - to[1]) / to[0])`. -/
def affFromTo (fromV toV : Vec2) : Option Vec2 :=
  match fdiv (fromV 0) (toV 0), fdiv (fromV 1 - toV 1) (toV 0) with
  | some g, some o => some ![g, o]
  | _, _ => none

/-! ## FrameHessian (HessianBlocks.h:104-292) -/

/-- The operations of the Lie group `SE3` (Sophus, outside this file) that the
frame setters use. -/
structure SE3Ops (G : Type) where
  exp : Vec6 → G
  mul : G → G → G
  inverse : G → G

/-- The pair `(a, b)` of `AffLight` (util/NumType.h, outside this file). -/
structure AffLight where
  a : ℚ
  b : ℚ

/-- The global settings (util/settings.h, outside this file) that the functions of
this header read. `SOLVER_REMOVE_POSEPRIOR` is the bit mask of that name. -/
structure Settings where
  setting_minGoodActiveResForMarg : Int
  setting_minGoodResForMarg : Int
  setting_initialTransPrior : ℚ
  setting_initialRotPrior : ℚ
  setting_initialAffAPrior : ℚ
  setting_initialAffBPrior : ℚ
  setting_affineOptModeA : ℚ
  setting_affineOptModeB : ℚ
  setting_solverMode : Int
  SOLVER_REMOVE_POSEPRIOR : Int

/-- The state fields of `FrameHessian` that the setters read or write. Image
buffers, point lists and the nullspace matrices are left out. -/
structure FrameHessian (G : Type) where
  frameID : Int
  idx : Int
  flaggedForMarginalization : Bool
  worldToCam_evalPT : G
  state_zero : Vec10
  state_scaled : Vec10
  state : Vec10
  step : Vec10
  step_backup : Vec10
  state_backup : Vec10
  PRE_worldToCam : G
  PRE_camToWorld : G

namespace FrameHessian

variable {G : Type}

def get_worldToCam_evalPT (fh : FrameHessian G) : G := fh.worldToCam_evalPT
def get_state_zero (fh : FrameHessian G) : Vec10 := fh.state_zero
def get_state (fh : FrameHessian G) : Vec10 := fh.state
def get_state_scaled (fh : FrameHessian G) : Vec10 := fh.state_scaled

/-- Source `get_state_minus_stateZero`: `get_state() - get_state_zero()`. -/
def get_state_minus_stateZero (fh : FrameHessian G) : Vec10 :=
  vsub fh.get_state fh.get_state_zero

/-- Source `w2c_leftEps`: `get_state_scaled().head<6>()`. -/
def w2c_leftEps (fh : FrameHessian G) : Vec6 := head6 fh.get_state_scaled

/-- Source `FrameHessian::setState` (lines 167-179). -/
def setState (ops : SE3Ops G) (fh : FrameHessian G) (state : Vec10) : FrameHessian G :=
  let fh := { fh with state := state }
  let trans : Vec3 := fun j => SCALE_XI_TRANS * segment3 state 0 j
  let fh := { fh with state_scaled := setSegment3 fh.state_scaled 0 trans }
  let rot : Vec3 := fun j => SCALE_XI_ROT * segment3 state 3 j
  let fh := { fh with state_scaled := setSegment3 fh.state_scaled 3 rot }
  let fh := { fh with state_scaled := setAt fh.state_scaled 6 (SCALE_A * state 6) }
  let fh := { fh with state_scaled := setAt fh.state_scaled 7 (SCALE_B * state 7) }
  let fh := { fh with state_scaled := setAt fh.state_scaled 8 (SCALE_A * state 8) }
  let fh := { fh with state_scaled := setAt fh.state_scaled 9 (SCALE_B * state 9) }
  let pre : G := ops.mul (ops.exp fh.w2c_leftEps) fh.get_worldToCam_evalPT
  let fh := { fh with PRE_worldToCam := pre }
  { fh with PRE_camToWorld := ops.inverse fh.PRE_worldToCam }

/-- Source `FrameHessian::setStateScaled` (lines 189-201). -/
def setStateScaled (ops : SE3Ops G) (fh : FrameHessian G) (state_scaled : Vec10) :
    FrameHessian G :=
  let fh := { fh with state_scaled := state_scaled }
  let trans : Vec3 := fun j => SCALE_XI_TRANS_INVERSE * segment3 state_scaled 0 j
  let fh := { fh with state := setSegment3 fh.state 0 trans }
  let rot : Vec3 := fun j => SCALE_XI_ROT_INVERSE * segment3 state_scaled 3 j
  let fh := { fh with state := setSegment3 fh.state 3 rot }
  let fh := { fh with state := setAt fh.state 6 (SCALE_A_INVERSE * state_scaled 6) }
  let fh := { fh with state := setAt fh.state 7 (SCALE_B_INVERSE * state_scaled 7) }
  let fh := { fh with state := setAt fh.state 8 (SCALE_A_INVERSE * state_scaled 8) }
  let fh := { fh with state := setAt fh.state 9 (SCALE_B_INVERSE * state_scaled 9) }
  let pre : G := ops.mul (ops.exp fh.w2c_leftEps) fh.get_worldToCam_evalPT
  let fh := { fh with PRE_worldToCam := pre }
  { fh with PRE_camToWorld := ops.inverse fh.PRE_worldToCam }

/-- Modelled from the spec: `FrameHessian::setStateZero` is declared at
HessianBlocks.h:165 and defined in a source file that is not part of `src/`.
The spec says the evaluation-point setter "fixes the FEJ-zero snapshot to the
resulting raw state", so the model stores its argument in `state_zero`. -/
def setStateZero (fh : FrameHessian G) (state_zero : Vec10) : FrameHessian G :=
  { fh with state_zero := state_zero }

/-- Source `aff_g2l`: the pair `(get_state_scaled()[6], get_state_scaled()[7])`. -/
def aff_g2l (fh : FrameHessian G) : AffLight :=
  { a := fh.get_state_scaled 6, b := fh.get_state_scaled 7 }

/-- Source `aff_g2l_0`. -/
def aff_g2l_0 (fh : FrameHessian G) : AffLight :=
  { a := fh.get_state_zero 6 * SCALE_A, b := fh.get_state_zero 7 * SCALE_B }

/-- Source `FrameHessian::setEvalPT` (lines 204-209). -/
def setEvalPT (ops : SE3Ops G) (fh : FrameHessian G) (worldToCam_evalPT : G)
    (state : Vec10) : FrameHessian G :=
  let fh := { fh with worldToCam_evalPT := worldToCam_evalPT }
  let fh := setState ops fh state
  setStateZero fh state

end FrameHessian

/-- Source `FrameHessian::setEvalPT_scaled` (lines 222-230). -/
def FrameHessian.setEvalPT_scaled {G : Type} (ops : SE3Ops G) (fh : FrameHessian G)
    (worldToCam_evalPT : G) (aff_g2l : AffLight) : FrameHessian G :=
  let initial_state : Vec10 := fun _ => 0
  let initial_state := setAt initial_state 6 aff_g2l.a
  let initial_state := setAt initial_state 7 aff_g2l.b
  let fh := { fh with worldToCam_evalPT := worldToCam_evalPT }
  let fh := FrameHessian.setStateScaled ops fh initial_state
  FrameHessian.setStateZero fh fh.get_state

/-- Source `FrameHessian::getPrior` (lines 260-289). -/
def FrameHessian.getPrior {G : Type} (cfg : Settings) (fh : FrameHessian G) : Vec10 :=
  let p : Vec10 := fun _ => 0
  let p :=
    if fh.frameID = 0 then
      let p := setSegment3 p 0 (fun _ => cfg.setting_initialTransPrior)
      let p := setSegment3 p 3 (fun _ => cfg.setting_initialRotPrior)
      let p : Vec10 :=
        if Int.land cfg.setting_solverMode cfg.SOLVER_REMOVE_POSEPRIOR ≠ 0 then
          fun i => if i.val < 6 then 0 else p i
        else p
      let p := setAt p 6 cfg.setting_initialAffAPrior
      setAt p 7 cfg.setting_initialAffBPrior
    else
      let p :=
        if cfg.setting_affineOptModeA < 0 then setAt p 6 cfg.setting_initialAffAPrior
        else setAt p 6 cfg.setting_affineOptModeA
      if cfg.setting_affineOptModeB < 0 then setAt p 7 cfg.setting_initialAffBPrior
      else setAt p 7 cfg.setting_affineOptModeB
  let p := setAt p 8 cfg.setting_initialAffAPrior
  setAt p 9 cfg.setting_initialAffBPrior

/-! ## CalibHessian (HessianBlocks.h:295-406) -/

/-- The fields of `CalibHessian`. `value_scaledi` holds quotients by run-time
values, so each component is an `Option`. `B` and `Binv` are the 256-entry
response tables. -/
structure CalibHessian where
  value_zero : VecC
  value_scaled : VecC
  value_scaledf : VecC
  value_scaledi : Fin 4 → Option ℚ
  value : VecC
  step : VecC
  step_backup : VecC
  value_backup : VecC
  value_minus_value_zero : VecC
  Binv : Fin 256 → ℚ
  B : Fin 256 → ℚ

/-- Eigen `cast<float>()`: the identity in exact arithmetic. -/
def castFloat (v : VecC) : VecC := v

/-- Read of a 256-entry table at an `int` index; an index outside `0..255` is an
out-of-bounds access and has no value. -/
def tableAt (T : Fin 256 → ℚ) (i : Int) : Option ℚ :=
  if h : 0 ≤ i ∧ i < 256 then some (T ⟨i.toNat, by omega⟩) else none

namespace CalibHessian

def fxl (hc : CalibHessian) : ℚ := hc.value_scaledf 0
def fyl (hc : CalibHessian) : ℚ := hc.value_scaledf 1
def cxl (hc : CalibHessian) : ℚ := hc.value_scaledf 2
def cyl (hc : CalibHessian) : ℚ := hc.value_scaledf 3
def fxli (hc : CalibHessian) : Option ℚ := hc.value_scaledi 0
def fyli (hc : CalibHessian) : Option ℚ := hc.value_scaledi 1
def cxli (hc : CalibHessian) : Option ℚ := hc.value_scaledi 2
def cyli (hc : CalibHessian) : Option ℚ := hc.value_scaledi 3

/-- Source `CalibHessian::setValue` (lines 346-360). -/
def setValue (hc : CalibHessian) (value : VecC) : CalibHessian :=
  let hc := { hc with value := value }
  let hc := { hc with value_scaled := setAt hc.value_scaled 0 (SCALE_F * value 0) }
  let hc := { hc with value_scaled := setAt hc.value_scaled 1 (1 * value 1) }
  let hc := { hc with value_scaled := setAt hc.value_scaled 2 (SCALE_C * value 2) }
  let hc := { hc with value_scaled := setAt hc.value_scaled 3 (SCALE_C * value 3) }
  let hc := { hc with value_scaledf := castFloat hc.value_scaled }
  let q0 := fdiv 1 (hc.value_scaledf 0)
  let hc := { hc with value_scaledi := setAt hc.value_scaledi 0 q0 }
  let q1 := fdiv 1 (hc.value_scaledf 1)
  let hc := { hc with value_scaledi := setAt hc.value_scaledi 1 q1 }
  let q2 := fdiv (-hc.value_scaledf 2) (hc.value_scaledf 0)
  let hc := { hc with value_scaledi := setAt hc.value_scaledi 2 q2 }
  let q3 := fdiv (-hc.value_scaledf 3) (hc.value_scaledf 1)
  let hc := { hc with value_scaledi := setAt hc.value_scaledi 3 q3 }
  { hc with value_minus_value_zero := vsub hc.value hc.value_zero }

/-- Source `CalibHessian::setValueScaled` (lines 367-382). -/
def setValueScaled (hc : CalibHessian) (value_scaled : VecC) : CalibHessian :=
  let hc := { hc with value_scaled := value_scaled }
  let hc := { hc with value_scaledf := castFloat hc.value_scaled }
  let hc := { hc with value := setAt hc.value 0 (SCALE_F_INVERSE * value_scaled 0) }
  let hc := { hc with value := setAt hc.value 1 (SCALE_F_INVERSE * value_scaled 1) }
  let hc := { hc with value := setAt hc.value 2 (SCALE_C_INVERSE * value_scaled 2) }
  let hc := { hc with value := setAt hc.value 3 (SCALE_C_INVERSE * value_scaled 3) }
  let hc := { hc with value_minus_value_zero := vsub hc.value hc.value_zero }
  let q0 := fdiv 1 (hc.value_scaledf 0)
  let hc := { hc with value_scaledi := setAt hc.value_scaledi 0 q0 }
  let q1 := fdiv 1 (hc.value_scaledf 1)
  let hc := { hc with value_scaledi := setAt hc.value_scaledi 1 q1 }
  let q2 := fdiv (-hc.value_scaledf 2) (hc.value_scaledf 0)
  let hc := { hc with value_scaledi := setAt hc.value_scaledi 2 q2 }
  let q3 := fdiv (-hc.value_scaledf 3) (hc.value_scaledf 1)
  { hc with value_scaledi := setAt hc.value_scaledi 3 q3 }

/-- Source constructor `CalibHessian::CalibHessian` (lines 315-333). `mem` is the
content of the object before the constructor runs, and `fxG0 .. cyG0` are the
globals `fxG[0] .. cyG[0]` of util/globalCalib.h. -/
def construct (mem : CalibHessian) (fxG0 fyG0 cxG0 cyG0 : ℚ) : CalibHessian :=
  let initial_value : VecC := fun _ => 0
  let initial_value := setAt initial_value 0 fxG0
  let initial_value := setAt initial_value 1 fyG0
  let initial_value := setAt initial_value 2 cxG0
  let initial_value := setAt initial_value 3 cyG0
  let hc := setValueScaled mem initial_value
  let hc := { hc with value_zero := hc.value }
  let hc := { hc with value_minus_value_zero := fun _ => 0 }
  { hc with Binv := fun i => (i.val : ℚ), B := fun i => (i.val : ℚ) }

/-- Source `CalibHessian::getBGradOnly` (lines 389-396). -/
def getBGradOnly (hc : CalibHessian) (color : ℚ) : Option ℚ :=
  match floatToInt (color + 1 / 2) with
  | none => none
  | some c =>
    let c := if c < 5 then 5 else c
    let c := if c > 250 then 250 else c
    match tableAt hc.B (c + 1), tableAt hc.B c with
    | some hi, some lo => some (hi - lo)
    | _, _ => none

/-- Source `CalibHessian::getBInvGradOnly` (lines 398-405). -/
def getBInvGradOnly (hc : CalibHessian) (color : ℚ) : Option ℚ :=
  match floatToInt (color + 1 / 2) with
  | none => none
  | some c =>
    let c := if c < 5 then 5 else c
    let c := if c > 250 then 250 else c
    match tableAt hc.Binv (c + 1), tableAt hc.Binv c with
    | some hi, some lo => some (hi - lo)
    | _, _ => none

end CalibHessian

/-! ## PointHessian (HessianBlocks.h:410-538) -/

/-- The outcome of a residual, `ResState` of FullSystem/Residuals.h (outside this
file). -/
inductive ResState where
  | IN
  | OOB
  | OUTLIER
  deriving DecidableEq

/-- The fields of `PointFrameResidual` (FullSystem/Residuals.h, outside this file)
that this header reads: the state of the residual and its target frame. -/
structure PointFrameResidual where
  state_state : ResState
  target : Nat
  deriving DecidableEq

/-- Source `PointHessian::PtStatus`. -/
inductive PtStatus where
  | ACTIVE
  | INACTIVE
  | OUTLIER
  | OOB
  | MARGINALIZED
  deriving DecidableEq

/-- The fields of `PointHessian` without the colour and weight arrays and the
pointers to the host frame and the energy point. `lastResiduals` has two slots,
each a pair of a residual pointer (possibly null) and its outcome. -/
structure PointHessian where
  idepth_scaled : ℚ
  idepth_zero_scaled : ℚ
  idepth_zero : ℚ
  idepth : ℚ
  step : ℚ
  step_backup : ℚ
  idepth_backup : ℚ
  nullspaces_scale : ℚ
  idepth_hessian : ℚ
  maxRelBaseline : ℚ
  numGoodResiduals : Int
  status : PtStatus
  residuals : List PointFrameResidual
  lastResiduals : Fin 2 → Option PointFrameResidual × ResState

namespace PointHessian

/-- Source `setPointStatus`. -/
def setPointStatus (ph : PointHessian) (s : PtStatus) : PointHessian :=
  { ph with status := s }

/-- Source `PointHessian::setIdepth` (lines 450-453). -/
def setIdepth (ph : PointHessian) (idepth : ℚ) : PointHessian :=
  let ph := { ph with idepth := idepth }
  { ph with idepth_scaled := SCALE_IDEPTH * idepth }

/-- Source `PointHessian::setIdepthScaled` (lines 454-457). -/
def setIdepthScaled (ph : PointHessian) (idepth_scaled : ℚ) : PointHessian :=
  let ph := { ph with idepth := SCALE_IDEPTH_INVERSE * idepth_scaled }
  { ph with idepth_scaled := idepth_scaled }

/-- Source `PointHessian::setIdepthZero` (lines 464-468). -/
def setIdepthZero (ph : PointHessian) (idepth : ℚ) : PointHessian :=
  let ph := { ph with idepth_zero := idepth }
  let ph := { ph with idepth_zero_scaled := SCALE_IDEPTH * idepth }
  { ph with nullspaces_scale := -(idepth * 1.001 - idepth / 1.001) * 500 }

/-- The counting loop of `isOOB` (lines 499-506): the number of pairs of an `IN`
residual and an entry of `toMarg` equal to its target. -/
def visInToMarg (ph : PointHessian) (toMarg : List Nat) : Int :=
  ph.residuals.foldl
    (fun vis r =>
      if r.state_state ≠ ResState.IN then vis
      else toMarg.foldl (fun v k => if r.target = k then v + 1 else v) vis)
    0

/-- Source `PointHessian::isOOB` (lines 496-526). Frames are given by their
identifiers. -/
def isOOB (cfg : Settings) (ph : PointHessian) (toKeep toMarg : List Nat) : Bool :=
  let vis := ph.visInToMarg toMarg
  if (ph.residuals.length : Int) ≥ cfg.setting_minGoodActiveResForMarg ∧
      ph.numGoodResiduals > cfg.setting_minGoodResForMarg + 10 ∧
      (ph.residuals.length : Int) - vis < cfg.setting_minGoodActiveResForMarg then true
  else if (ph.lastResiduals 0).2 = ResState.OOB then true
  else if ph.residuals.length < 2 then false
  else if (ph.lastResiduals 0).2 = ResState.OUTLIER ∧
      (ph.lastResiduals 1).2 = ResState.OUTLIER then true
  else false

/-- Source `PointHessian::isInlierNew` (line 537). -/
def isInlierNew (cfg : Settings) (ph : PointHessian) : Bool :=
  decide ((ph.residuals.length : Int) ≥ cfg.setting_minGoodActiveResForMarg) &&
    decide (ph.numGoodResiduals ≥ cfg.setting_minGoodResForMarg)

end PointHessian

/-- The body shared by `getBGradOnly` and `getBInvGradOnly`, with the table as an
argument; both accessors are instances of it (`getBGradOnly_eq_gradOnly`,
`getBInvGradOnly_eq_gradOnly`). -/
def gradOnly (T : Fin 256 → ℚ) (color : ℚ) : Option ℚ :=
  match floatToInt (color + 1 / 2) with
  | none => none
  | some c =>
    let c := if c < 5 then 5 else c
    let c := if c > 250 then 250 else c
    match tableAt T (c + 1), tableAt T c with
    | some hi, some lo => some (hi - lo)
    | _, _ => none

/-- An object whose memory is all zero, the content `construct` starts from in the
examples. -/
def CalibHessian.zeroed : CalibHessian :=
  { value_zero := fun _ => 0, value_scaled := fun _ => 0, value_scaledf := fun _ => 0,
    value_scaledi := fun _ => some 0, value := fun _ => 0, step := fun _ => 0,
    step_backup := fun _ => 0, value_backup := fun _ => 0,
    value_minus_value_zero := fun _ => 0, Binv := fun _ => 0, B := fun _ => 0 }

/-! ## Example values for the scenarios of the specification -/

/-- The calibration state of the scenario "initialized with raw intrinsics
(500, 500, 320, 240)": the constructor run on zeroed memory. -/
def CalibHessian.scenario : CalibHessian :=
  CalibHessian.construct CalibHessian.zeroed 500 500 320 240

/-- Settings with `setting_minGoodActiveResForMarg = 3` and
`setting_minGoodResForMarg = 4`, the thresholds of the lifecycle scenarios; the
prior settings are sample values. -/
def Settings.scenario : Settings :=
  { setting_minGoodActiveResForMarg := 3
    setting_minGoodResForMarg := 4
    setting_initialTransPrior := 10000000000
    setting_initialRotPrior := 100000000000
    setting_initialAffAPrior := 100000000000000
    setting_initialAffBPrior := 100000000000000
    setting_affineOptModeA := 1000000000000
    setting_affineOptModeB := 100000000
    setting_solverMode := 0
    SOLVER_REMOVE_POSEPRIOR := 32 }

/-- A point with the given lifetime count, residual list and last two outcomes;
every other field is zero. -/
def PointHessian.scenario (numGood : Int) (residuals : List PointFrameResidual)
    (last0 last1 : ResState) : PointHessian :=
  { idepth_scaled := 0, idepth_zero_scaled := 0, idepth_zero := 0, idepth := 0,
    step := 0, step_backup := 0, idepth_backup := 0, nullspaces_scale := 0,
    idepth_hessian := 0, maxRelBaseline := 0, numGoodResiduals := numGood,
    status := PtStatus.ACTIVE, residuals := residuals,
    lastResiduals := ![(none, last0), (none, last1)] }

/-! ## Definitions that follow the wording of the specification -/

/-- Spec wording: "round the input to the nearest integer", ties upward. -/
def roundNearest (x : ℚ) : Int := ⌊x + 1 / 2⌋

/-- Spec wording: "clamp it to [5, 250]". -/
def clampIndex (c : Int) : Int := max 5 (min 250 c)

/-- Spec wording: the index the gradient accessors use, the rounded input clamped. -/
def specGradIndex (color : ℚ) : Int := clampIndex (roundNearest color)

/-- Spec wording: "the forward finite difference at that index" of a table. -/
def forwardDiff (T : Fin 256 → ℚ) (n : Fin 255) : ℚ := T n.succ - T n.castSucc

/-- Claim wording: "the number of IN residuals whose target is in toMarg". -/
def inToMargCount (residuals : List PointFrameResidual) (toMarg : List Nat) : Nat :=
  (residuals.filter
    (fun r => decide (r.state_state = ResState.IN) && decide (r.target ∈ toMarg))).length

/-- Closed form of the counting loop of `isOOB`: every `IN` residual contributes
the number of occurrences of its target in `toMarg`
(`visInToMarg_eq_pairCount`). -/
def pairCount (residuals : List PointFrameResidual) (toMarg : List Nat) : Nat :=
  match residuals with
  | [] => 0
  | r :: rs =>
    (if r.state_state = ResState.IN then toMarg.count r.target else 0) + pairCount rs toMarg

/-- Spec wording of the prior vector (section 6 and the claim on `getPrior`): pose
priors only for frame 0 and only while the `SOLVER_REMOVE_POSEPRIOR` bit is clear;
affine priors fixed for frame 0, and for later frames fixed when the optimization
mode is negative and the mode value otherwise; slots 8 and 9 always the fixed
affine priors. -/
def priorSpec (cfg : Settings) (frameID : Int) : Vec10 :=
  fun i =>
    if i.val < 3 then
      if frameID = 0 ∧ Int.land cfg.setting_solverMode cfg.SOLVER_REMOVE_POSEPRIOR = 0 then
        cfg.setting_initialTransPrior
      else 0
    else if i.val < 6 then
      if frameID = 0 ∧ Int.land cfg.setting_solverMode cfg.SOLVER_REMOVE_POSEPRIOR = 0 then
        cfg.setting_initialRotPrior
      else 0
    else if i.val = 6 then
      if frameID = 0 then cfg.setting_initialAffAPrior
      else if cfg.setting_affineOptModeA < 0 then cfg.setting_initialAffAPrior
      else cfg.setting_affineOptModeA
    else if i.val = 7 then
      if frameID = 0 then cfg.setting_initialAffBPrior
      else if cfg.setting_affineOptModeB < 0 then cfg.setting_initialAffBPrior
      else cfg.setting_affineOptModeB
    else if i.val = 8 then cfg.setting_initialAffAPrior
    else cfg.setting_initialAffBPrior

/-- A call of one of the two calibration setters. -/
inductive CalibCall where
  | setValue (value : VecC)
  | setValueScaled (value_scaled : VecC)

/-- The state after one setter call. -/
def CalibHessian.call (hc : CalibHessian) : CalibCall → CalibHessian
  | CalibCall.setValue v => hc.setValue v
  | CalibCall.setValueScaled s => hc.setValueScaled s

/-- The state after a sequence of setter calls, first call first. -/
def CalibHessian.calls (hc : CalibHessian) (cs : List CalibCall) : CalibHessian :=
  cs.foldl CalibHessian.call hc

/-- The frame state of the examples: an identifier and zero vectors, over the
trivial group. -/
def FrameHessian.scenario (frameID : Int) : FrameHessian Unit :=
  { frameID := frameID, idx := 0, flaggedForMarginalization := false,
    worldToCam_evalPT := (), state_zero := fun _ => 0, state_scaled := fun _ => 0,
    state := fun _ => 0, step := fun _ => 0, step_backup := fun _ => 0,
    state_backup := fun _ => 0, PRE_worldToCam := (), PRE_camToWorld := () }

/-! ## Theorems -/

/-! ### Helper lemmas on the frame setters -/

theorem frameScale_ne_zero (i : Fin 10) : frameScale i ≠ 0 := by
  fin_cases i <;>
    first
      | (show SCALE_XI_TRANS ≠ 0; norm_num [SCALE_XI_TRANS])
      | (show SCALE_XI_ROT ≠ 0; norm_num [SCALE_XI_ROT])
      | (show SCALE_A ≠ 0; norm_num [SCALE_A])
      | (show SCALE_B ≠ 0; norm_num [SCALE_B])

theorem setState_state_scaled_apply {G : Type} (ops : SE3Ops G) (fh : FrameHessian G)
    (r : Vec10) (i : Fin 10) :
    (FrameHessian.setState ops fh r).state_scaled i = frameScale i * r i := by
  fin_cases i <;> rfl

theorem setStateScaled_state_apply {G : Type} (ops : SE3Ops G) (fh : FrameHessian G)
    (s : Vec10) (i : Fin 10) :
    (FrameHessian.setStateScaled ops fh s).state i = 1 / frameScale i * s i := by
  fin_cases i <;> rfl

theorem frameScale_values :
    frameScale = ![1/2, 1/2, 1/2, 1, 1, 1, 10, 1000, 10, 1000] := by
  funext i
  fin_cases i <;>
    first
      | (show SCALE_XI_TRANS = 1 / 2; rfl)
      | (show SCALE_XI_ROT = 1; rfl)
      | (show SCALE_A = 10; rfl)
      | (show SCALE_B = 1000; rfl)

/-! ### Frame state -/

/-- C1: after `setState r` the raw state is `r` and the scaled state is
`scale ⊙ r`, where the scale is (0.5, 0.5, 0.5, 1, 1, 1, 10, 1000, 10, 1000),
the constants (SCALE_XI_TRANS x3, SCALE_XI_ROT x3, SCALE_A, SCALE_B, SCALE_A,
SCALE_B). -/
theorem setState_state_and_scaled {G : Type} (ops : SE3Ops G) (fh : FrameHessian G)
    (r : Vec10) :
    (FrameHessian.setState ops fh r).state = r ∧
    (∀ i : Fin 10, (FrameHessian.setState ops fh r).state_scaled i = frameScale i * r i) ∧
    (FrameHessian.setState ops fh r).state_scaled = scaleMul r ∧
    frameScale = ![SCALE_XI_TRANS, SCALE_XI_TRANS, SCALE_XI_TRANS, SCALE_XI_ROT,
      SCALE_XI_ROT, SCALE_XI_ROT, SCALE_A, SCALE_B, SCALE_A, SCALE_B] ∧
    frameScale = ![1/2, 1/2, 1/2, 1, 1, 1, 10, 1000, 10, 1000] := by
  refine ⟨rfl, setState_state_scaled_apply ops fh r, ?_, rfl, frameScale_values⟩
  funext i
  exact setState_state_scaled_apply ops fh r i

/-- C2: round trip between the two frame setters. `setStateScaled (scale ⊙ r)`
leaves the raw state equal to `r` and yields the same `(state, state_scaled)`
pair as `setState r`; and `setState`, applied to the raw state that
`setStateScaled s` produced, restores `state_scaled = s`. -/
theorem setState_setStateScaled_roundtrip {G : Type} (ops : SE3Ops G)
    (fh fh2 : FrameHessian G) (r s : Vec10) :
    (FrameHessian.setStateScaled ops fh (scaleMul r)).state = r ∧
    ((FrameHessian.setStateScaled ops fh (scaleMul r)).state,
      (FrameHessian.setStateScaled ops fh (scaleMul r)).state_scaled) =
      ((FrameHessian.setState ops fh r).state,
        (FrameHessian.setState ops fh r).state_scaled) ∧
    (FrameHessian.setState ops fh2
      (FrameHessian.setStateScaled ops fh s).state).state_scaled = s := by
  have h1 : (FrameHessian.setStateScaled ops fh (scaleMul r)).state = r := by
    funext i
    rw [setStateScaled_state_apply]
    have hne := frameScale_ne_zero i
    simp only [scaleMul]
    field_simp
  have h2 : (FrameHessian.setState ops fh r).state_scaled = scaleMul r := by
    funext i
    exact setState_state_scaled_apply ops fh r i
  refine ⟨h1, ?_, ?_⟩
  · rw [h1, h2]
    rfl
  · funext i
    rw [setState_state_scaled_apply, setStateScaled_state_apply]
    have hne := frameScale_ne_zero i
    field_simp

/-- C3: FEJ zero at creation. After `setEvalPT pose r` the linearization pose is
`pose`, the raw state is `r`, and `get_state_minus_stateZero` is zero in all ten
components. -/
theorem setEvalPT_delta_zero {G : Type} (ops : SE3Ops G) (fh : FrameHessian G)
    (pose : G) (r : Vec10) :
    (FrameHessian.setEvalPT ops fh pose r).worldToCam_evalPT = pose ∧
    (FrameHessian.setEvalPT ops fh pose r).state = r ∧
    ∀ i : Fin 10, (FrameHessian.setEvalPT ops fh pose r).get_state_minus_stateZero i = 0 := by
  refine ⟨rfl, rfl, ?_⟩
  intro i
  show r i - r i = 0
  exact sub_self _

/-- C4: the routine setters do not write the FEJ-zero snapshot. `setState` and
`setStateScaled` keep `state_zero` and `worldToCam_evalPT`; `setValue` and
`setValueScaled` keep `value_zero`; `setIdepth` and `setIdepthScaled` keep
`idepth_zero`, `idepth_zero_scaled` and `nullspaces_scale`. -/
theorem routine_setters_keep_zero {G : Type} (ops : SE3Ops G) (fh : FrameHessian G)
    (v : Vec10) (hc : CalibHessian) (w : VecC) (ph : PointHessian) (d : ℚ) :
    ((FrameHessian.setState ops fh v).state_zero = fh.state_zero ∧
      (FrameHessian.setState ops fh v).worldToCam_evalPT = fh.worldToCam_evalPT) ∧
    ((FrameHessian.setStateScaled ops fh v).state_zero = fh.state_zero ∧
      (FrameHessian.setStateScaled ops fh v).worldToCam_evalPT = fh.worldToCam_evalPT) ∧
    (hc.setValue w).value_zero = hc.value_zero ∧
    (hc.setValueScaled w).value_zero = hc.value_zero ∧
    ((ph.setIdepth d).idepth_zero = ph.idepth_zero ∧
      (ph.setIdepth d).idepth_zero_scaled = ph.idepth_zero_scaled ∧
      (ph.setIdepth d).nullspaces_scale = ph.nullspaces_scale) ∧
    ((ph.setIdepthScaled d).idepth_zero = ph.idepth_zero ∧
      (ph.setIdepthScaled d).idepth_zero_scaled = ph.idepth_zero_scaled ∧
      (ph.setIdepthScaled d).nullspaces_scale = ph.nullspaces_scale) :=
  ⟨⟨rfl, rfl⟩, ⟨rfl, rfl⟩, rfl, rfl, ⟨rfl, rfl, rfl⟩, ⟨rfl, rfl, rfl⟩⟩

/-! ### Affine composer -/

/-- C5, as stated, fails for a zero gain: `affFromTo ((0, 7), (0, 7))` divides by
zero and is not `(1, 0)`. -/
theorem affFromTo_self_zero_gain : affFromTo ![0, 7] ![0, 7] ≠ some ![1, 0] := by
  simp [affFromTo, fdiv]

/-- C5, amended: for every gain/bias pair `(g, o)` with `g ≠ 0`,
`affFromTo ((g, o), (g, o))` is `(1, 0)`. -/
theorem affFromTo_self (g o : ℚ) (hg : g ≠ 0) :
    affFromTo ![g, o] ![g, o] = some ![1, 0] := by
  simp [affFromTo, fdiv, hg]

theorem affFromTo_self_witness :
    (2 : ℚ) ≠ 0 ∧ affFromTo ![2, 3] ![2, 3] = some ![1, 0] :=
  ⟨by norm_num, affFromTo_self 2 3 (by norm_num)⟩

/-! ### Response-gradient accessors -/

theorem getBGradOnly_eq_gradOnly (hc : CalibHessian) (color : ℚ) :
    hc.getBGradOnly color = gradOnly hc.B color := rfl

theorem getBInvGradOnly_eq_gradOnly (hc : CalibHessian) (color : ℚ) :
    hc.getBInvGradOnly color = gradOnly hc.Binv color := rfl

theorem floatToInt_ne_none_of_range (x : ℚ) (hlo : -2147483648 ≤ x)
    (hhi : x ≤ 2147483647) : floatToInt x ≠ none := by
  have h1 : (-2147483648 : Int) ≤ ⌊x⌋ := Int.le_floor.mpr (by exact_mod_cast hlo)
  have h2 : ⌈x⌉ ≤ (2147483647 : Int) := Int.ceil_le.mpr (by exact_mod_cast hhi)
  have h3 : ⌊x⌋ ≤ ⌈x⌉ := Int.floor_le_ceil x
  unfold floatToInt
  by_cases hx : 0 ≤ x
  · have : ⌊x⌋ ≤ (2147483647 : Int) := le_trans h3 h2
    simp [hx, h1, this]
  · have : (-2147483648 : Int) ≤ ⌈x⌉ := le_trans h1 h3
    simp [hx, h2, this]

theorem floatToInt_eq_of_ne_none (x : ℚ) (h : floatToInt x ≠ none) :
    floatToInt x = some (if 0 ≤ x then ⌊x⌋ else ⌈x⌉) := by
  unfold floatToInt at h ⊢
  simp only at h ⊢
  split_ifs at h ⊢ <;> simp_all

/-- The two `if` statements of the accessors, applied to the truncated value, give
the clamped floor: below zero truncation and floor differ, but both clamp to 5. -/
theorem clamp_trunc_eq_clamp_floor (x : ℚ) (t : Int)
    (ht : t = if 0 ≤ x then ⌊x⌋ else ⌈x⌉) :
    (if (if t < 5 then 5 else t) > 250 then 250 else (if t < 5 then 5 else t)) =
      clampIndex ⌊x⌋ := by
  unfold clampIndex
  by_cases hx : 0 ≤ x
  · rw [if_pos hx] at ht
    subst ht
    split_ifs <;> omega
  · rw [if_neg hx] at ht
    have hc : ⌈x⌉ ≤ 0 := Int.ceil_le.mpr (by push_cast; linarith)
    have hf : ⌊x⌋ ≤ ⌈x⌉ := Int.floor_le_ceil x
    subst ht
    split_ifs <;> omega

theorem clampIndex_bounds (c : Int) : 5 ≤ clampIndex c ∧ clampIndex c ≤ 250 := by
  unfold clampIndex
  omega

theorem tableAt_of_range (T : Fin 256 → ℚ) (i : Int) (h : 0 ≤ i ∧ i < 256) :
    tableAt T i = some (T ⟨i.toNat, by omega⟩) := by
  unfold tableAt
  rw [dif_pos h]

theorem gradOnly_eq_forwardDiff (T : Fin 256 → ℚ) (color : ℚ)
    (hrep : floatToInt (color + 1 / 2) ≠ none) (n : Fin 255)
    (hn : (n.val : Int) = specGradIndex color) :
    gradOnly T color = some (forwardDiff T n) := by
  have hb := clampIndex_bounds (roundNearest color)
  have hclamp := clamp_trunc_eq_clamp_floor (color + 1 / 2) _ rfl
  have hidx : specGradIndex color = clampIndex ⌊color + 1 / 2⌋ := rfl
  unfold gradOnly
  rw [floatToInt_eq_of_ne_none _ hrep]
  simp only
  rw [hclamp, ← hidx, ← hn]
  have hnlt := n.isLt
  rw [tableAt_of_range T ((n.val : Int) + 1) (by omega),
    tableAt_of_range T (n.val : Int) (by omega)]
  simp only [forwardDiff]
  congr 2

theorem specGradIndex_of_le_five (color : ℚ) (h : color ≤ 5) : specGradIndex color = 5 := by
  have hfl : ⌊color + 1 / 2⌋ < 6 := Int.floor_lt.mpr (by push_cast; linarith)
  unfold specGradIndex roundNearest clampIndex
  omega

theorem specGradIndex_of_ge_250 (color : ℚ) (h : 250 ≤ color) :
    specGradIndex color = 250 := by
  have hfl : 250 ≤ ⌊color + 1 / 2⌋ := Int.le_floor.mpr (by push_cast; linarith)
  unfold specGradIndex roundNearest clampIndex
  omega

theorem gradOnly_congr_index (T : Fin 256 → ℚ) (c1 c2 : ℚ)
    (h1 : floatToInt (c1 + 1 / 2) ≠ none) (h2 : floatToInt (c2 + 1 / 2) ≠ none)
    (h : specGradIndex c1 = specGradIndex c2) : gradOnly T c1 = gradOnly T c2 := by
  have hb := clampIndex_bounds (roundNearest c1)
  have hidx : specGradIndex c1 = clampIndex (roundNearest c1) := rfl
  have hn : (((specGradIndex c1).toNat : Nat) : Int) = specGradIndex c1 :=
    Int.toNat_of_nonneg (by omega)
  have hlt : (specGradIndex c1).toNat < 255 := by omega
  rw [gradOnly_eq_forwardDiff T c1 h1 ⟨_, hlt⟩ hn,
    gradOnly_eq_forwardDiff T c2 h2 ⟨_, hlt⟩ (hn.trans h)]

theorem gradOnly_congr_table (T U : Fin 256 → ℚ) (color : ℚ)
    (hrep : floatToInt (color + 1 / 2) ≠ none)
    (h : ∀ i : Fin 256, 5 ≤ i.val → i.val ≤ 251 → U i = T i) :
    gradOnly U color = gradOnly T color := by
  have hb := clampIndex_bounds (roundNearest color)
  have hidx : specGradIndex color = clampIndex (roundNearest color) := rfl
  have hn : (((specGradIndex color).toNat : Nat) : Int) = specGradIndex color :=
    Int.toNat_of_nonneg (by omega)
  have hlt : (specGradIndex color).toNat < 255 := by omega
  rw [gradOnly_eq_forwardDiff T color hrep ⟨_, hlt⟩ hn,
    gradOnly_eq_forwardDiff U color hrep ⟨_, hlt⟩ hn]
  have hs := h (Fin.succ ⟨(specGradIndex color).toNat, hlt⟩)
    (by simp only [Fin.val_succ]; omega) (by simp only [Fin.val_succ]; omega)
  have hc := h (Fin.castSucc ⟨(specGradIndex color).toNat, hlt⟩)
    (by simp only [Fin.coe_castSucc]; omega) (by simp only [Fin.coe_castSucc]; omega)
  simp only [forwardDiff, hs, hc]

/-- C6: for every colour whose sum with 0.5 converts to an `int`, `getBGradOnly`
returns `B[c+1] - B[c]` where `c` is the colour rounded to the nearest integer
(ties upward) and clamped to [5, 250]; every input below 5 returns what input 5
returns, every input above 250 returns what input 250 returns, and the result
depends on the table only through the indices 5..251. The same holds for
`getBInvGradOnly` over `Binv`. -/
theorem getBGradOnly_rounds_and_clamps (hc : CalibHessian) (color : ℚ)
    (hrep : floatToInt (color + 1 / 2) ≠ none) :
    (∃ n : Fin 255, (n.val : Int) = specGradIndex color ∧ 5 ≤ n.val ∧ n.val ≤ 250 ∧
      hc.getBGradOnly color = some (forwardDiff hc.B n) ∧
      hc.getBInvGradOnly color = some (forwardDiff hc.Binv n)) ∧
    (color < 5 → hc.getBGradOnly color = hc.getBGradOnly 5 ∧
      hc.getBInvGradOnly color = hc.getBInvGradOnly 5) ∧
    (250 < color → hc.getBGradOnly color = hc.getBGradOnly 250 ∧
      hc.getBInvGradOnly color = hc.getBInvGradOnly 250) ∧
    (∀ hc2 : CalibHessian, (∀ i : Fin 256, 5 ≤ i.val → i.val ≤ 251 → hc2.B i = hc.B i) →
      hc2.getBGradOnly color = hc.getBGradOnly color) ∧
    (∀ hc2 : CalibHessian,
      (∀ i : Fin 256, 5 ≤ i.val → i.val ≤ 251 → hc2.Binv i = hc.Binv i) →
      hc2.getBInvGradOnly color = hc.getBInvGradOnly color) := by
  have hb := clampIndex_bounds (roundNearest color)
  have hidx : specGradIndex color = clampIndex (roundNearest color) := rfl
  have hn : (((specGradIndex color).toNat : Nat) : Int) = specGradIndex color :=
    Int.toNat_of_nonneg (by omega)
  have hlt : (specGradIndex color).toNat < 255 := by omega
  have h5 : floatToInt ((5 : ℚ) + 1 / 2) ≠ none :=
    floatToInt_ne_none_of_range _ (by norm_num) (by norm_num)
  have h250 : floatToInt ((250 : ℚ) + 1 / 2) ≠ none :=
    floatToInt_ne_none_of_range _ (by norm_num) (by norm_num)
  simp only [getBGradOnly_eq_gradOnly, getBInvGradOnly_eq_gradOnly]
  refine ⟨⟨⟨_, hlt⟩, hn, ?_, ?_, gradOnly_eq_forwardDiff _ _ hrep _ hn,
    gradOnly_eq_forwardDiff _ _ hrep _ hn⟩, ?_, ?_, ?_, ?_⟩
  · show 5 ≤ (specGradIndex color).toNat
    omega
  · show (specGradIndex color).toNat ≤ 250
    omega
  · intro hlt5
    have he : specGradIndex color = specGradIndex 5 := by
      rw [specGradIndex_of_le_five color hlt5.le, specGradIndex_of_le_five 5 le_rfl]
    exact ⟨gradOnly_congr_index _ _ _ hrep h5 he, gradOnly_congr_index _ _ _ hrep h5 he⟩
  · intro hgt
    have he : specGradIndex color = specGradIndex 250 := by
      rw [specGradIndex_of_ge_250 color hgt.le, specGradIndex_of_ge_250 250 le_rfl]
    exact ⟨gradOnly_congr_index _ _ _ hrep h250 he,
      gradOnly_congr_index _ _ _ hrep h250 he⟩
  · intro hc2 hagree
    exact gradOnly_congr_table _ _ _ hrep hagree
  · intro hc2 hagree
    exact gradOnly_congr_table _ _ _ hrep hagree

theorem getBGradOnly_rounds_and_clamps_witness :
    floatToInt ((-100 : ℚ) + 1 / 2) ≠ none ∧ floatToInt ((400 : ℚ) + 1 / 2) ≠ none ∧
    CalibHessian.scenario.getBGradOnly (-100) = CalibHessian.scenario.getBGradOnly 5 ∧
    CalibHessian.scenario.getBGradOnly 400 = CalibHessian.scenario.getBGradOnly 250 :=
  ⟨floatToInt_ne_none_of_range _ (by norm_num) (by norm_num),
    floatToInt_ne_none_of_range _ (by norm_num) (by norm_num),
    ((getBGradOnly_rounds_and_clamps CalibHessian.scenario (-100)
      (floatToInt_ne_none_of_range _ (by norm_num) (by norm_num))).2.1 (by norm_num)).1,
    ((getBGradOnly_rounds_and_clamps CalibHessian.scenario 400
      (floatToInt_ne_none_of_range _ (by norm_num) (by norm_num))).2.2.1 (by norm_num)).1⟩

/-! ### Calibration state -/

theorem setValue_value_scaled (hc : CalibHessian) (v : VecC) :
    (hc.setValue v).value_scaled = ![SCALE_F * v 0, 1 * v 1, SCALE_C * v 2, SCALE_C * v 3] := by
  funext i
  fin_cases i <;> rfl

/-- C7 at the input (500, 500, 320, 240): `setValue` stores the focal-y component
unscaled, so `value_scaled[1]` is 500 while `SCALE_F * value[1]` is 25000; the
other three components are scaled, and `setValueScaled` keeps the invariant in
all four. -/
theorem setValue_breaks_scaling_invariant (hc : CalibHessian) :
    (hc.setValue ![500, 500, 320, 240]).value_scaled = ![25000, 500, 16000, 12000] ∧
    (hc.setValue ![500, 500, 320, 240]).value = ![500, 500, 320, 240] ∧
    (hc.setValue ![500, 500, 320, 240]).value_scaled 1 ≠
      SCALE_F * (hc.setValue ![500, 500, 320, 240]).value 1 ∧
    (∀ s : VecC, ∀ i : Fin 4, (hc.setValueScaled s).value_scaled i =
      ![SCALE_F, SCALE_F, SCALE_C, SCALE_C] i * (hc.setValueScaled s).value i) := by
  refine ⟨?_, rfl, ?_, ?_⟩
  · rw [setValue_value_scaled]
    funext i
    fin_cases i <;> simp [SCALE_F, SCALE_C] <;> norm_num
  · rw [setValue_value_scaled]
    show (1 : ℚ) * 500 ≠ SCALE_F * 500
    norm_num [SCALE_F]
  · intro s i
    fin_cases i
    · show s 0 = SCALE_F * (SCALE_F_INVERSE * s 0)
      simp only [SCALE_F, SCALE_F_INVERSE]
      ring
    · show s 1 = SCALE_F * (SCALE_F_INVERSE * s 1)
      simp only [SCALE_F, SCALE_F_INVERSE]
      ring
    · show s 2 = SCALE_C * (SCALE_C_INVERSE * s 2)
      simp only [SCALE_C, SCALE_C_INVERSE]
      ring
    · show s 3 = SCALE_C * (SCALE_C_INVERSE * s 3)
      simp only [SCALE_C, SCALE_C_INVERSE]
      ring

/-- C8: for a raw intrinsics vector `v` with `v[0] ≠ 0`, after `setValue v` the
physical focal-x `fxl()` is `v[0] * SCALE_F` and the inverse focal-x `fxli()` is
`1 / (v[0] * SCALE_F)`. -/
theorem setValue_fxl_fxli (hc : CalibHessian) (v : VecC) (h0 : v 0 ≠ 0) :
    (hc.setValue v).fxl = v 0 * SCALE_F ∧
    (hc.setValue v).fxli = some (1 / (v 0 * SCALE_F)) := by
  have hfx : (hc.setValue v).fxl = SCALE_F * v 0 := rfl
  have hfxi : (hc.setValue v).fxli = fdiv 1 (SCALE_F * v 0) := rfl
  have hne : SCALE_F * v 0 ≠ 0 := mul_ne_zero (by norm_num [SCALE_F]) h0
  refine ⟨by rw [hfx, mul_comm], ?_⟩
  rw [hfxi, fdiv, if_neg hne, mul_comm]

theorem setValue_fxl_fxli_witness :
    (![500, 500, 320, 240] : VecC) 0 ≠ 0 ∧
    (CalibHessian.scenario.setValue ![500, 500, 320, 240]).fxl = 500 * SCALE_F ∧
    (CalibHessian.scenario.setValue ![500, 500, 320, 240]).fxli =
      some (1 / (500 * SCALE_F)) :=
  ⟨by simp, setValue_fxl_fxli CalibHessian.scenario ![500, 500, 320, 240] (by simp)⟩

/-! ### Point state -/

/-- C9: `setIdepth d` yields `idepth = d` and `idepth_scaled = d * SCALE_IDEPTH`;
`setIdepthZero d` yields `idepth_zero = d`, `idepth_zero_scaled = d * SCALE_IDEPTH`
and `nullspaces_scale = -(d * 1.001 - d / 1.001) * 500`. -/
theorem setIdepth_setIdepthZero_values (ph : PointHessian) (d : ℚ) :
    (ph.setIdepth d).idepth = d ∧
    (ph.setIdepth d).idepth_scaled = d * SCALE_IDEPTH ∧
    (ph.setIdepthZero d).idepth_zero = d ∧
    (ph.setIdepthZero d).idepth_zero_scaled = d * SCALE_IDEPTH ∧
    (ph.setIdepthZero d).nullspaces_scale = -(d * 1.001 - d / 1.001) * 500 ∧
    ((PointHessian.scenario 0 [] ResState.IN ResState.IN).setIdepth (1 / 10)).idepth_scaled =
      1 / 10 * SCALE_IDEPTH ∧
    ((PointHessian.scenario 0 [] ResState.IN ResState.IN).setIdepthZero
      (1 / 10)).nullspaces_scale = -(1 / 10 * 1.001 - 1 / 10 / 1.001) * 500 :=
  ⟨rfl, mul_comm _ _, rfl, mul_comm _ _, rfl, mul_comm _ _, rfl⟩

/-- C10: OOB dominance. If the latest residual outcome `lastResiduals[0]` is OOB
then `isOOB` returns true, whatever the residual list, `numGoodResiduals`,
`lastResiduals[1]`, the two frame lists and the thresholds are. -/
theorem isOOB_of_latest_OOB (cfg : Settings) (ph : PointHessian) (toKeep toMarg : List Nat)
    (h : (ph.lastResiduals 0).2 = ResState.OOB) :
    ph.isOOB cfg toKeep toMarg = true := by
  unfold PointHessian.isOOB
  simp only [h]
  split_ifs <;> rfl

theorem isOOB_of_latest_OOB_witness :
    ((PointHessian.scenario 0 [] ResState.OOB ResState.IN).lastResiduals 0).2 =
      ResState.OOB ∧
    (PointHessian.scenario 0 [] ResState.OOB ResState.IN).isOOB Settings.scenario [] [7] =
      true :=
  ⟨rfl, isOOB_of_latest_OOB Settings.scenario _ [] [7] rfl⟩

/-! ### Point lifecycle classifier -/

theorem innerLoop_eq (t : Nat) (toMarg : List Nat) (v : Int) :
    toMarg.foldl (fun v k => if t = k then v + 1 else v) v = v + (toMarg.count t : Int) := by
  induction toMarg generalizing v with
  | nil => simp
  | cons k ks ih =>
    rw [List.foldl_cons, ih]
    by_cases h : t = k
    · subst h
      simp
      ring
    · have hk : ¬ k = t := fun e => h e.symm
      simp [h, List.count_cons, hk]

theorem outerLoop_eq (rs : List PointFrameResidual) (toMarg : List Nat) (acc : Int) :
    rs.foldl
      (fun vis r =>
        if r.state_state ≠ ResState.IN then vis
        else toMarg.foldl (fun v k => if r.target = k then v + 1 else v) vis)
      acc = acc + (pairCount rs toMarg : Int) := by
  induction rs generalizing acc with
  | nil => simp [pairCount]
  | cons r rs ih =>
    rw [List.foldl_cons, ih]
    by_cases h : r.state_state = ResState.IN
    · simp only [h, ne_eq, not_true_eq_false, if_false, innerLoop_eq, pairCount, if_true]
      push_cast
      ring
    · simp only [h, ne_eq, not_false_eq_true, if_true, pairCount, if_false]
      push_cast
      ring

theorem visInToMarg_eq_pairCount (ph : PointHessian) (toMarg : List Nat) :
    ph.visInToMarg toMarg = (pairCount ph.residuals toMarg : Int) := by
  unfold PointHessian.visInToMarg
  rw [outerLoop_eq]
  simp

theorem inToMargCount_le_pairCount (rs : List PointFrameResidual) (toMarg : List Nat) :
    inToMargCount rs toMarg ≤ pairCount rs toMarg := by
  induction rs with
  | nil => simp [inToMargCount, pairCount]
  | cons r rs ih =>
    unfold inToMargCount at ih ⊢
    unfold pairCount
    rw [List.filter_cons]
    by_cases h : r.state_state = ResState.IN
    · by_cases hm : r.target ∈ toMarg
      · have hpos : 0 < toMarg.count r.target := List.count_pos_iff.mpr hm
        simp only [h, hm, decide_True, Bool.and_self, if_true, List.length_cons]
        omega
      · simp only [h, hm, decide_True, decide_False, Bool.and_false, if_true]
        simp only [Bool.false_eq_true, if_false]
        omega
    · simp only [h, decide_False, Bool.false_and, if_false]
      simp only [Bool.false_eq_true, if_false]
      omega

theorem pairCount_le_append (rs : List PointFrameResidual) (toMarg extra : List Nat) :
    pairCount rs toMarg ≤ pairCount rs (toMarg ++ extra) := by
  induction rs with
  | nil => simp [pairCount]
  | cons r rs ih =>
    unfold pairCount
    by_cases h : r.state_state = ResState.IN
    · simp only [h, if_true, List.count_append]
      omega
    · simp only [h, if_false]
      omega

theorem pairCount_nil (rs : List PointFrameResidual) : pairCount rs [] = 0 := by
  induction rs with
  | nil => rfl
  | cons r rs ih =>
    unfold pairCount
    simp [ih]

/-- C11, as stated, fails on the scenario of the claim: thresholds 3 and 4, three
`IN` residuals with targets 1, 2, 3, fourteen lifetime good residuals and frame 3
to be marginalized. All three conditions of the claim hold (3 ≥ 3, 14 ≥ 4 + 10,
3 - 1 < 3) and `isOOB` returns false, because the code compares
`numGoodResiduals > setting_minGoodResForMarg + 10`. -/
theorem isOOB_starvation_at_fourteen :
    ((PointHessian.scenario 14 [⟨ResState.IN, 1⟩, ⟨ResState.IN, 2⟩, ⟨ResState.IN, 3⟩]
        ResState.IN ResState.IN).residuals.length : Int) ≥
      Settings.scenario.setting_minGoodActiveResForMarg ∧
    (PointHessian.scenario 14 [⟨ResState.IN, 1⟩, ⟨ResState.IN, 2⟩, ⟨ResState.IN, 3⟩]
        ResState.IN ResState.IN).numGoodResiduals ≥
      Settings.scenario.setting_minGoodResForMarg + 10 ∧
    (3 : Int) - (inToMargCount [⟨ResState.IN, 1⟩, ⟨ResState.IN, 2⟩, ⟨ResState.IN, 3⟩] [3] : Int) <
      Settings.scenario.setting_minGoodActiveResForMarg ∧
    (PointHessian.scenario 14 [⟨ResState.IN, 1⟩, ⟨ResState.IN, 2⟩, ⟨ResState.IN, 3⟩]
        ResState.IN ResState.IN).isOOB Settings.scenario [] [3] = false := by
  refine ⟨by decide, by decide, by decide, by decide⟩

/-- C11, amended: if `residuals.size()` is at least `minGoodActiveResForMarg`,
`numGoodResiduals` is greater than `minGoodResForMarg + 10`, and `residuals.size()`
minus the number of `IN` residuals whose target is in `toMarg` is less than
`minGoodActiveResForMarg`, then `isOOB` returns true. -/
theorem isOOB_of_starvation (cfg : Settings) (ph : PointHessian) (toKeep toMarg : List Nat)
    (hactive : (ph.residuals.length : Int) ≥ cfg.setting_minGoodActiveResForMarg)
    (hgood : ph.numGoodResiduals > cfg.setting_minGoodResForMarg + 10)
    (hleft : (ph.residuals.length : Int) - (inToMargCount ph.residuals toMarg : Int) <
      cfg.setting_minGoodActiveResForMarg) :
    ph.isOOB cfg toKeep toMarg = true := by
  have hle : (inToMargCount ph.residuals toMarg : Int) ≤ ph.visInToMarg toMarg := by
    rw [visInToMarg_eq_pairCount]
    exact_mod_cast inToMargCount_le_pairCount ph.residuals toMarg
  have hvis : (ph.residuals.length : Int) - ph.visInToMarg toMarg <
      cfg.setting_minGoodActiveResForMarg := by omega
  unfold PointHessian.isOOB
  simp only
  rw [if_pos ⟨hactive, hgood, hvis⟩]

theorem isOOB_of_starvation_witness :
    ((PointHessian.scenario 15 [⟨ResState.IN, 1⟩, ⟨ResState.IN, 2⟩, ⟨ResState.IN, 3⟩]
        ResState.IN ResState.IN).residuals.length : Int) ≥
      Settings.scenario.setting_minGoodActiveResForMarg ∧
    (PointHessian.scenario 15 [⟨ResState.IN, 1⟩, ⟨ResState.IN, 2⟩, ⟨ResState.IN, 3⟩]
        ResState.IN ResState.IN).isOOB Settings.scenario [] [3] = true :=
  ⟨by decide, isOOB_of_starvation Settings.scenario
    (PointHessian.scenario 15 [⟨ResState.IN, 1⟩, ⟨ResState.IN, 2⟩, ⟨ResState.IN, 3⟩]
      ResState.IN ResState.IN) [] [3] (by decide) (by decide) (by decide)⟩

/-- C12: grace period. A point whose residual list is empty and whose latest
residual outcome is not OOB is kept: `isOOB` returns false for all frame lists and
all thresholds, also when both `lastResiduals` slots are OUTLIER. -/
theorem isOOB_false_of_no_residuals (cfg : Settings) (ph : PointHessian)
    (toKeep toMarg : List Nat) (hempty : ph.residuals = [])
    (hlatest : (ph.lastResiduals 0).2 ≠ ResState.OOB) :
    ph.isOOB cfg toKeep toMarg = false := by
  have hvis : ph.visInToMarg toMarg = 0 := by
    rw [visInToMarg_eq_pairCount, hempty]
    rfl
  unfold PointHessian.isOOB
  simp only [hvis, hempty, List.length_nil]
  have hstarve : ¬ (((0 : Nat) : Int) ≥ cfg.setting_minGoodActiveResForMarg ∧
      ph.numGoodResiduals > cfg.setting_minGoodResForMarg + 10 ∧
      ((0 : Nat) : Int) - 0 < cfg.setting_minGoodActiveResForMarg) := by
    rintro ⟨h1, -, h3⟩
    omega
  rw [if_neg hstarve, if_neg hlatest, if_pos (by decide)]

theorem isOOB_false_of_no_residuals_witness :
    (PointHessian.scenario 15 [] ResState.OUTLIER ResState.OUTLIER).residuals = [] ∧
    ((PointHessian.scenario 15 [] ResState.OUTLIER ResState.OUTLIER).lastResiduals 0).2 ≠
      ResState.OOB ∧
    (PointHessian.scenario 15 [] ResState.OUTLIER ResState.OUTLIER).isOOB
      Settings.scenario [1] [2] = false :=
  ⟨rfl, by decide, isOOB_false_of_no_residuals Settings.scenario
    (PointHessian.scenario 15 [] ResState.OUTLIER ResState.OUTLIER) [1] [2] rfl (by decide)⟩

/-- C13: double-outlier rule. A point with at least two residuals whose
`lastResiduals[0]` and `lastResiduals[1]` are both OUTLIER is removed: `isOOB`
returns true for all frame lists and thresholds. -/
theorem isOOB_of_double_outlier (cfg : Settings) (ph : PointHessian)
    (toKeep toMarg : List Nat) (hsize : 2 ≤ ph.residuals.length)
    (h0 : (ph.lastResiduals 0).2 = ResState.OUTLIER)
    (h1 : (ph.lastResiduals 1).2 = ResState.OUTLIER) :
    ph.isOOB cfg toKeep toMarg = true := by
  unfold PointHessian.isOOB
  simp only [h0, h1]
  have hnot : ¬ ph.residuals.length < 2 := by omega
  split_ifs <;> first | rfl | simp_all

theorem isOOB_of_double_outlier_witness :
    2 ≤ (PointHessian.scenario 0 [⟨ResState.IN, 1⟩, ⟨ResState.IN, 2⟩]
      ResState.OUTLIER ResState.OUTLIER).residuals.length ∧
    (PointHessian.scenario 0 [⟨ResState.IN, 1⟩, ⟨ResState.IN, 2⟩]
      ResState.OUTLIER ResState.OUTLIER).isOOB Settings.scenario [] [] = true :=
  ⟨by decide, isOOB_of_double_outlier Settings.scenario
    (PointHessian.scenario 0 [⟨ResState.IN, 1⟩, ⟨ResState.IN, 2⟩]
      ResState.OUTLIER ResState.OUTLIER) [] [] (by decide) rfl rfl⟩

/-- C14: `isInlierNew` returns true if and only if `residuals.size()` is at least
`minGoodActiveResForMarg` and `numGoodResiduals` is at least `minGoodResForMarg`. -/
theorem isInlierNew_iff (cfg : Settings) (ph : PointHessian) :
    ph.isInlierNew cfg = true ↔
      (ph.residuals.length : Int) ≥ cfg.setting_minGoodActiveResForMarg ∧
      ph.numGoodResiduals ≥ cfg.setting_minGoodResForMarg := by
  simp [PointHessian.isInlierNew]

/-- C18: retention otherwise. `isOOB` returns true only if a removal rule applies:
the latest outcome is OOB, or the starvation condition holds (`residuals.size()` at
least `minGoodActiveResForMarg`, `numGoodResiduals` at least
`minGoodResForMarg + 10`, `residuals.size() - visInToMarg` below
`minGoodActiveResForMarg`), or there are at least two residuals and both last
outcomes are OUTLIER. In every other case it returns false. -/
theorem isOOB_only_if_rule (cfg : Settings) (ph : PointHessian) (toKeep toMarg : List Nat) :
    (ph.isOOB cfg toKeep toMarg = true →
      ((ph.lastResiduals 0).2 = ResState.OOB ∨
       ((ph.residuals.length : Int) ≥ cfg.setting_minGoodActiveResForMarg ∧
        ph.numGoodResiduals ≥ cfg.setting_minGoodResForMarg + 10 ∧
        (ph.residuals.length : Int) - ph.visInToMarg toMarg <
          cfg.setting_minGoodActiveResForMarg) ∨
       (2 ≤ ph.residuals.length ∧ (ph.lastResiduals 0).2 = ResState.OUTLIER ∧
        (ph.lastResiduals 1).2 = ResState.OUTLIER))) ∧
    (¬ ((ph.lastResiduals 0).2 = ResState.OOB ∨
       ((ph.residuals.length : Int) ≥ cfg.setting_minGoodActiveResForMarg ∧
        ph.numGoodResiduals ≥ cfg.setting_minGoodResForMarg + 10 ∧
        (ph.residuals.length : Int) - ph.visInToMarg toMarg <
          cfg.setting_minGoodActiveResForMarg) ∨
       (2 ≤ ph.residuals.length ∧ (ph.lastResiduals 0).2 = ResState.OUTLIER ∧
        (ph.lastResiduals 1).2 = ResState.OUTLIER)) →
      ph.isOOB cfg toKeep toMarg = false) := by
  have key : ph.isOOB cfg toKeep toMarg = true →
      ((ph.lastResiduals 0).2 = ResState.OOB ∨
       ((ph.residuals.length : Int) ≥ cfg.setting_minGoodActiveResForMarg ∧
        ph.numGoodResiduals ≥ cfg.setting_minGoodResForMarg + 10 ∧
        (ph.residuals.length : Int) - ph.visInToMarg toMarg <
          cfg.setting_minGoodActiveResForMarg) ∨
       (2 ≤ ph.residuals.length ∧ (ph.lastResiduals 0).2 = ResState.OUTLIER ∧
        (ph.lastResiduals 1).2 = ResState.OUTLIER)) := by
    unfold PointHessian.isOOB
    simp only
    split_ifs with hstarve hoob hfew hout
    · intro _
      exact Or.inr (Or.inl ⟨hstarve.1, le_of_lt hstarve.2.1, hstarve.2.2⟩)
    · intro _
      exact Or.inl hoob
    · intro hfalse
      exact absurd hfalse (by decide)
    · intro _
      exact Or.inr (Or.inr ⟨by omega, hout.1, hout.2⟩)
    · intro hfalse
      exact absurd hfalse (by decide)
  refine ⟨key, fun hno => ?_⟩
  cases hres : ph.isOOB cfg toKeep toMarg with
  | false => rfl
  | true => exact absurd (key hres) hno

theorem isOOB_only_if_rule_witness :
    (PointHessian.scenario 14 [⟨ResState.IN, 1⟩, ⟨ResState.IN, 2⟩, ⟨ResState.IN, 3⟩]
        ResState.IN ResState.OUTLIER).isOOB Settings.scenario [] [4] = false :=
  (isOOB_only_if_rule Settings.scenario
    (PointHessian.scenario 14 [⟨ResState.IN, 1⟩, ⟨ResState.IN, 2⟩, ⟨ResState.IN, 3⟩]
      ResState.IN ResState.OUTLIER) [] [4]).2 (by decide)

/-- C19: `isOOB` is monotone in the list of frames to marginalize and independent
of `toKeep`: if `isOOB toKeep toMarg` is true then `isOOB toKeep2 (toMarg ++ extra)`
is true. With `toMarg` empty the starvation rule does not fire, and `isOOB` is true
exactly when the latest outcome is OOB or there are at least two residuals and both
last outcomes are OUTLIER. -/
theorem isOOB_mono_toMarg (cfg : Settings) (ph : PointHessian)
    (toKeep toKeep2 toMarg extra : List Nat) :
    (ph.isOOB cfg toKeep toMarg = true → ph.isOOB cfg toKeep2 (toMarg ++ extra) = true) ∧
    ¬ ((ph.residuals.length : Int) ≥ cfg.setting_minGoodActiveResForMarg ∧
        ph.numGoodResiduals > cfg.setting_minGoodResForMarg + 10 ∧
        (ph.residuals.length : Int) - ph.visInToMarg [] <
          cfg.setting_minGoodActiveResForMarg) ∧
    (ph.isOOB cfg toKeep [] = true ↔
      ((ph.lastResiduals 0).2 = ResState.OOB ∨
       (2 ≤ ph.residuals.length ∧ (ph.lastResiduals 0).2 = ResState.OUTLIER ∧
        (ph.lastResiduals 1).2 = ResState.OUTLIER))) := by
  have hmono : ph.visInToMarg toMarg ≤ ph.visInToMarg (toMarg ++ extra) := by
    rw [visInToMarg_eq_pairCount, visInToMarg_eq_pairCount]
    exact_mod_cast pairCount_le_append ph.residuals toMarg extra
  have hnil : ph.visInToMarg [] = 0 := by
    rw [visInToMarg_eq_pairCount, pairCount_nil]
    rfl
  have hstarve : ¬ ((ph.residuals.length : Int) ≥ cfg.setting_minGoodActiveResForMarg ∧
      ph.numGoodResiduals > cfg.setting_minGoodResForMarg + 10 ∧
      (ph.residuals.length : Int) - ph.visInToMarg [] <
        cfg.setting_minGoodActiveResForMarg) := by
    rw [hnil]
    rintro ⟨h1, -, h3⟩
    omega
  refine ⟨?_, hstarve, ?_⟩
  · unfold PointHessian.isOOB
    simp only
    intro h
    by_cases hs : (ph.residuals.length : Int) ≥ cfg.setting_minGoodActiveResForMarg ∧
        ph.numGoodResiduals > cfg.setting_minGoodResForMarg + 10 ∧
        (ph.residuals.length : Int) - ph.visInToMarg toMarg <
          cfg.setting_minGoodActiveResForMarg
    · have hs2 : (ph.residuals.length : Int) ≥ cfg.setting_minGoodActiveResForMarg ∧
          ph.numGoodResiduals > cfg.setting_minGoodResForMarg + 10 ∧
          (ph.residuals.length : Int) - ph.visInToMarg (toMarg ++ extra) <
            cfg.setting_minGoodActiveResForMarg := ⟨hs.1, hs.2.1, by omega⟩
      rw [if_pos hs2]
    · rw [if_neg hs] at h
      by_cases hs2 : (ph.residuals.length : Int) ≥ cfg.setting_minGoodActiveResForMarg ∧
          ph.numGoodResiduals > cfg.setting_minGoodResForMarg + 10 ∧
          (ph.residuals.length : Int) - ph.visInToMarg (toMarg ++ extra) <
            cfg.setting_minGoodActiveResForMarg
      · rw [if_pos hs2]
      · rw [if_neg hs2]
        exact h
  · unfold PointHessian.isOOB
    simp only
    rw [if_neg hstarve]
    constructor
    · intro h
      by_cases hoob : (ph.lastResiduals 0).2 = ResState.OOB
      · exact Or.inl hoob
      · rw [if_neg hoob] at h
        by_cases hfew : ph.residuals.length < 2
        · rw [if_pos hfew] at h
          exact absurd h (by decide)
        · rw [if_neg hfew] at h
          by_cases hout : (ph.lastResiduals 0).2 = ResState.OUTLIER ∧
              (ph.lastResiduals 1).2 = ResState.OUTLIER
          · exact Or.inr ⟨by omega, hout.1, hout.2⟩
          · rw [if_neg hout] at h
            exact absurd h (by decide)
    · rintro (hoob | ⟨hsize, h0, h1⟩)
      · rw [if_pos hoob]
      · have hnot : ¬ ph.residuals.length < 2 := by omega
        split_ifs <;> first | rfl | simp_all

theorem isOOB_mono_toMarg_witness :
    (PointHessian.scenario 15 [⟨ResState.IN, 1⟩, ⟨ResState.IN, 2⟩, ⟨ResState.IN, 3⟩]
        ResState.IN ResState.IN).isOOB Settings.scenario [1, 2] [3] = true ∧
    (PointHessian.scenario 15 [⟨ResState.IN, 1⟩, ⟨ResState.IN, 2⟩, ⟨ResState.IN, 3⟩]
        ResState.IN ResState.IN).isOOB Settings.scenario [] ([3] ++ [9]) = true :=
  ⟨by decide, (isOOB_mono_toMarg Settings.scenario
    (PointHessian.scenario 15 [⟨ResState.IN, 1⟩, ⟨ResState.IN, 2⟩, ⟨ResState.IN, 3⟩]
      ResState.IN ResState.IN) [1, 2] [] [3] [9]).1 (by decide)⟩

/-! ### Prior vector -/

/-- C15: `getPrior` returns exactly the vector of the description. For frame 0 the
components 0..2 are `setting_initialTransPrior` and 3..5 are
`setting_initialRotPrior`, all six zero when the `SOLVER_REMOVE_POSEPRIOR` bit of
`setting_solverMode` is set, and components 6, 7 are the fixed affine priors. For
any other frame components 0..5 are zero, component 6 is
`setting_initialAffAPrior` when `setting_affineOptModeA < 0` and
`setting_affineOptModeA` otherwise, and component 7 likewise with the B settings.
Components 8 and 9 are the fixed affine priors in both cases. -/
theorem getPrior_eq_priorSpec {G : Type} (cfg : Settings) (fh : FrameHessian G) :
    fh.getPrior cfg = priorSpec cfg fh.frameID := by
  funext i
  unfold FrameHessian.getPrior priorSpec
  by_cases hid : fh.frameID = 0
  · by_cases hbit : Int.land cfg.setting_solverMode cfg.SOLVER_REMOVE_POSEPRIOR = 0
    · simp only [hid, hbit, ne_eq, not_true_eq_false, if_true, if_false, and_self]
      fin_cases i <;> rfl
    · simp only [hid, hbit, ne_eq, not_false_eq_true, if_true, if_false, and_false]
      fin_cases i <;> rfl
  · by_cases hA : cfg.setting_affineOptModeA < 0
    · by_cases hB : cfg.setting_affineOptModeB < 0
      · simp only [hid, hA, hB, if_true, if_false, false_and]
        fin_cases i <;> rfl
      · simp only [hid, hA, hB, if_true, if_false, false_and]
        fin_cases i <;> rfl
    · by_cases hB : cfg.setting_affineOptModeB < 0
      · simp only [hid, hA, hB, if_true, if_false, false_and]
        fin_cases i <;> rfl
      · simp only [hid, hA, hB, if_true, if_false, false_and]
        fin_cases i <;> rfl

/-! ### Affine composer, common reference -/

/-- C16: for `from = (g_a, o_a)` and `to = (g_b, o_b)` with `g_b ≠ 0`, `affFromTo`
returns `(g_a / g_b, (o_a - o_b) / g_b)`, and applying the returned transform and
then the `to` transform equals applying the `from` transform:
`g_b * (g * x + o) + o_b = g_a * x + o_a` for every intensity `x`. -/
theorem affFromTo_eliminates_reference (ga oa gb ob : ℚ) (hgb : gb ≠ 0) :
    ∃ res : Vec2, affFromTo ![ga, oa] ![gb, ob] = some res ∧
      res = ![ga / gb, (oa - ob) / gb] ∧
      ∀ x : ℚ, gb * (res 0 * x + res 1) + ob = ga * x + oa := by
  refine ⟨![ga / gb, (oa - ob) / gb], ?_, rfl, ?_⟩
  · simp [affFromTo, fdiv, hgb]
  · intro x
    show gb * (ga / gb * x + (oa - ob) / gb) + ob = ga * x + oa
    field_simp
    ring

theorem affFromTo_eliminates_reference_witness :
    (4 : ℚ) ≠ 0 ∧ affFromTo ![2, 7] ![4, 3] = some ![2 / 4, (7 - 3) / 4] :=
  ⟨by norm_num, by
    obtain ⟨res, hres, hval, -⟩ := affFromTo_eliminates_reference 2 7 4 3 (by norm_num)
    rw [hres, hval]⟩

/-! ### Inverse intrinsics and the FEJ delta cache -/

theorem setValue_value_scaledi (hc : CalibHessian) (v : VecC) :
    (hc.setValue v).value_scaledi =
      ![fdiv 1 ((hc.setValue v).fxl), fdiv 1 ((hc.setValue v).fyl),
        fdiv (-(hc.setValue v).cxl) ((hc.setValue v).fxl),
        fdiv (-(hc.setValue v).cyl) ((hc.setValue v).fyl)] := by
  funext i
  fin_cases i <;> rfl

theorem setValueScaled_value_scaledi (hc : CalibHessian) (s : VecC) :
    (hc.setValueScaled s).value_scaledi =
      ![fdiv 1 ((hc.setValueScaled s).fxl), fdiv 1 ((hc.setValueScaled s).fyl),
        fdiv (-(hc.setValueScaled s).cxl) ((hc.setValueScaled s).fxl),
        fdiv (-(hc.setValueScaled s).cyl) ((hc.setValueScaled s).fyl)] := by
  funext i
  fin_cases i <;> rfl

theorem fdiv_of_ne_zero (a b : ℚ) (hb : b ≠ 0) : fdiv a b = some (a / b) := by
  unfold fdiv
  rw [if_neg hb]

/-- C17: after `setValue` or `setValueScaled`, whenever the call leaves
`value_scaledf[0] ≠ 0` and `value_scaledf[1] ≠ 0`, the inverse intrinsics are
`(1/fxl, 1/fyl, -cxl/fxl, -cyl/fyl)`, so back-projection undoes projection:
`fxl * (fxli * u + cxli) + cxl = u` and `fyl * (fyli * w + cyli) + cyl = w` for all
pixel coordinates. -/
theorem value_scaledi_inverts (hc hc2 : CalibHessian) (arg : VecC)
    (hcall : hc2 = hc.setValue arg ∨ hc2 = hc.setValueScaled arg)
    (hfx : hc2.value_scaledf 0 ≠ 0) (hfy : hc2.value_scaledf 1 ≠ 0) :
    hc2.value_scaledi = ![some (1 / hc2.fxl), some (1 / hc2.fyl),
      some (-hc2.cxl / hc2.fxl), some (-hc2.cyl / hc2.fyl)] ∧
    ∃ fxi fyi cxi cyi : ℚ,
      hc2.fxli = some fxi ∧ hc2.fyli = some fyi ∧ hc2.cxli = some cxi ∧ hc2.cyli = some cyi ∧
      (∀ u : ℚ, hc2.fxl * (fxi * u + cxi) + hc2.cxl = u) ∧
      (∀ w : ℚ, hc2.fyl * (fyi * w + cyi) + hc2.cyl = w) := by
  have hx : hc2.fxl ≠ 0 := hfx
  have hy : hc2.fyl ≠ 0 := hfy
  have hinv : hc2.value_scaledi = ![some (1 / hc2.fxl), some (1 / hc2.fyl),
      some (-hc2.cxl / hc2.fxl), some (-hc2.cyl / hc2.fyl)] := by
    rcases hcall with h | h
    · rw [← fdiv_of_ne_zero _ _ hx, ← fdiv_of_ne_zero _ _ hy, ← fdiv_of_ne_zero _ _ hx,
        ← fdiv_of_ne_zero _ _ hy]
      subst h
      exact setValue_value_scaledi hc arg
    · rw [← fdiv_of_ne_zero _ _ hx, ← fdiv_of_ne_zero _ _ hy, ← fdiv_of_ne_zero _ _ hx,
        ← fdiv_of_ne_zero _ _ hy]
      subst h
      exact setValueScaled_value_scaledi hc arg
  refine ⟨hinv, 1 / hc2.fxl, 1 / hc2.fyl, -hc2.cxl / hc2.fxl, -hc2.cyl / hc2.fyl,
    ?_, ?_, ?_, ?_, ?_, ?_⟩
  · show hc2.value_scaledi 0 = _
    rw [hinv]
    rfl
  · show hc2.value_scaledi 1 = _
    rw [hinv]
    rfl
  · show hc2.value_scaledi 2 = _
    rw [hinv]
    rfl
  · show hc2.value_scaledi 3 = _
    rw [hinv]
    rfl
  · intro u
    field_simp
  · intro w
    field_simp

theorem value_scaledi_inverts_witness :
    (CalibHessian.scenario.setValue ![500, 500, 320, 240]).value_scaledf 0 ≠ 0 ∧
    (CalibHessian.scenario.setValue ![500, 500, 320, 240]).value_scaledf 1 ≠ 0 ∧
    (CalibHessian.scenario.setValue ![500, 500, 320, 240]).value_scaledi =
      ![some (1 / (CalibHessian.scenario.setValue ![500, 500, 320, 240]).fxl),
        some (1 / (CalibHessian.scenario.setValue ![500, 500, 320, 240]).fyl),
        some (-(CalibHessian.scenario.setValue ![500, 500, 320, 240]).cxl /
          (CalibHessian.scenario.setValue ![500, 500, 320, 240]).fxl),
        some (-(CalibHessian.scenario.setValue ![500, 500, 320, 240]).cyl /
          (CalibHessian.scenario.setValue ![500, 500, 320, 240]).fyl)] :=
  have h0 : (CalibHessian.scenario.setValue ![500, 500, 320, 240]).value_scaledf 0 ≠ 0 := by
    show SCALE_F * (500 : ℚ) ≠ 0
    norm_num [SCALE_F]
  have h1 : (CalibHessian.scenario.setValue ![500, 500, 320, 240]).value_scaledf 1 ≠ 0 := by
    show (1 : ℚ) * 500 ≠ 0
    norm_num
  ⟨h0, h1, (value_scaledi_inverts CalibHessian.scenario
    (CalibHessian.scenario.setValue ![500, 500, 320, 240]) ![500, 500, 320, 240]
    (Or.inl rfl) h0 h1).1⟩

theorem call_delta_consistent (hc : CalibHessian) (c : CalibCall) :
    (hc.call c).value_minus_value_zero = vsub (hc.call c).value (hc.call c).value_zero := by
  cases c <;> rfl

theorem calls_delta_consistent (cs : List CalibCall) (hc : CalibHessian)
    (h : hc.value_minus_value_zero = vsub hc.value hc.value_zero) :
    (hc.calls cs).value_minus_value_zero = vsub (hc.calls cs).value (hc.calls cs).value_zero := by
  induction cs generalizing hc with
  | nil => exact h
  | cons c cs ih => exact ih (hc.call c) (call_delta_consistent hc c)

/-- C20: the calibration FEJ delta cache is consistent. Right after construction
`value_zero = value` and `value_minus_value_zero = 0`; after every call of
`setValue` or `setValueScaled`, on any state, and so after every sequence of such
calls that follows the construction, `value_minus_value_zero = value - value_zero`
in all four components. -/
theorem calib_delta_cache_consistent (mem hc : CalibHessian) (fxG0 fyG0 cxG0 cyG0 : ℚ)
    (arg : VecC) (cs : List CalibCall) :
    (CalibHessian.construct mem fxG0 fyG0 cxG0 cyG0).value_zero =
      (CalibHessian.construct mem fxG0 fyG0 cxG0 cyG0).value ∧
    (∀ i : Fin 4,
      (CalibHessian.construct mem fxG0 fyG0 cxG0 cyG0).value_minus_value_zero i = 0) ∧
    (∀ i : Fin 4, (hc.setValue arg).value_minus_value_zero i =
      (hc.setValue arg).value i - (hc.setValue arg).value_zero i) ∧
    (∀ i : Fin 4, (hc.setValueScaled arg).value_minus_value_zero i =
      (hc.setValueScaled arg).value i - (hc.setValueScaled arg).value_zero i) ∧
    (∀ i : Fin 4,
      ((CalibHessian.construct mem fxG0 fyG0 cxG0 cyG0).calls cs).value_minus_value_zero i =
        ((CalibHessian.construct mem fxG0 fyG0 cxG0 cyG0).calls cs).value i -
        ((CalibHessian.construct mem fxG0 fyG0 cxG0 cyG0).calls cs).value_zero i) := by
  have hzero : (CalibHessian.construct mem fxG0 fyG0 cxG0 cyG0).value_zero =
      (CalibHessian.construct mem fxG0 fyG0 cxG0 cyG0).value := rfl
  have hdelta : (CalibHessian.construct mem fxG0 fyG0 cxG0 cyG0).value_minus_value_zero =
      fun _ => 0 := rfl
  have hinit : (CalibHessian.construct mem fxG0 fyG0 cxG0 cyG0).value_minus_value_zero =
      vsub (CalibHessian.construct mem fxG0 fyG0 cxG0 cyG0).value
        (CalibHessian.construct mem fxG0 fyG0 cxG0 cyG0).value_zero := by
    funext i
    rw [hdelta, vsub, hzero]
    simp
  refine ⟨hzero, fun i => by rw [hdelta], fun i => rfl, fun i => rfl, fun i => ?_⟩
  rw [calls_delta_consistent cs _ hinit]
  rfl

/-! ### Nullspace scale of a point -/

/-- C21: in exact arithmetic `setIdepthZero d` sets
`nullspaces_scale = -(2001/2002) * d` for every inverse depth `d`; hence it is zero
if and only if `d = 0`, negative for positive `d` and positive for negative `d`. -/
theorem setIdepthZero_nullspaces_scale (ph : PointHessian) (d : ℚ) :
    (ph.setIdepthZero d).nullspaces_scale = -(2001 / 2002) * d ∧
    ((ph.setIdepthZero d).nullspaces_scale = 0 ↔ d = 0) ∧
    (0 < d ↔ (ph.setIdepthZero d).nullspaces_scale < 0) ∧
    (d < 0 ↔ 0 < (ph.setIdepthZero d).nullspaces_scale) := by
  have hval : (ph.setIdepthZero d).nullspaces_scale = -(2001 / 2002) * d := by
    show -(d * 1.001 - d / 1.001) * 500 = -(2001 / 2002) * d
    norm_num
    ring
  rw [hval]
  refine ⟨rfl, ?_, ?_, ?_⟩
  · constructor
    · intro h
      linarith
    · intro h
      rw [h]
      norm_num
  · constructor <;> intro h <;> linarith
  · constructor <;> intro h <;> linarith

end dso
